import Mathlib

/-!
Shallow embedding of `examples/detectnet-pipeline/detectnet-pipeline.cpp`
(the orchestration loop of the detectnet pipeline example).

The program is modelled as a deterministic function of an environment that
fixes the outcomes of every collaborator call (pipeline creation and capture
results, detection counts, display state, SIGINT delivery points).  The run
produces a trace of observable events (collaborator calls and printf
diagnostics) together with an outcome (process exit code, crash on a null
pointer dereference, or fuel exhaustion of the model).
-/

namespace DetectnetPipeline

/-- One detection result, mirroring `detectNet::Detection`
(ClassID, Confidence, Left/Top/Right/Bottom; Width/Height derived). -/
structure Detection where
  classID : Nat
  confidence : Int
  left : Int
  top : Int
  right : Int
  bottom : Int
deriving Repr, DecidableEq

/-- `Detection::Width() = Right - Left`. -/
def Detection.width (d : Detection) : Int := d.right - d.left

/-- `Detection::Height() = Bottom - Top`. -/
def Detection.height (d : Detection) : Int := d.bottom - d.top

/-- Observable events of a run: collaborator calls and printf lines,
in the order the program performs them. -/
inductive Event where
  | printUsage
  | logCannotCatchSigint
  | logPipelineInitFail
  | logPipelineInitOk
  | logNetLoadFail
  | logDisplayCreateFail
  | setViewport (x y w h : Nat)
  | logPipelineOpenFail
  | logPipelineOpenOk
  | capture (i : Nat)
  | logCaptureFail (i : Nat)
  | detect (i : Nat)
  | logNumDetections (i : Nat) (n : Int)
  | logDetection (i : Nat) (n : Nat) (d : Detection)
  | renderOnce (i : Nat)
  | setTitle (i : Nat)
  | checkClosed (i : Nat)
  | logReceivedSigint
  | logShuttingDown
  | deletePipeline
  | deleteDisplay
  | deleteNet
  | logShutdownComplete
deriving Repr, DecidableEq

/-- How a run of `main` ends. -/
inductive Outcome where
  | exited (code : Int)
  | crashed
  | outOfFuel
deriving Repr, DecidableEq

/-- A run: its event trace and outcome. -/
structure RunResult where
  trace : List Event
  outcome : Outcome
deriving Repr, DecidableEq

/-- The environment: results of every external collaborator call, indexed by
loop iteration where relevant, plus the SIGINT delivery point (`sigintAt k`
means the signal handler runs at the loop boundary just before the while
condition check of iteration `k`). -/
structure Env where
  helpFlag : Bool
  signalInstallOk : Bool
  pipelineCreateOk : Bool
  width : Nat
  height : Nat
  pipelineOpenOk : Bool
  netCreateOk : Bool
  displayCreateOk : Bool
  captureOk : Nat → Bool
  detectCount : Nat → Int
  detections : Nat → List Detection
  displayClosed : Nat → Bool
  sigintAt : Option Nat

/-- `SIGINT` signal number. -/
def SIGINT : Nat := 2

/-- `sig_handler`: on SIGINT, print a line and set `signal_recieved`. -/
def sig_handler (signo : Nat) (flag : Bool) : List Event × Bool :=
  if signo = SIGINT then ([Event.logReceivedSigint], true) else ([], flag)

/-- The per-detection printf lines of the `for( int n=0; n < numDetections; n++ )`
loop (two printf calls per detection, folded into one event carrying the data). -/
def detLogs (i : Nat) (count : Nat) (ds : List Detection) : List Event :=
  ((List.range count).zip ds).map (fun p => Event.logDetection i p.1 p.2)

/-- One execution of the while-loop body (source lines 148-187) at iteration `i`
with current `signal_recieved = flag`.  Returns the emitted events and the
value of `signal_recieved` after the body:
capture (printf on failure, no skip), then detect (always called), then the
`numDetections > 0` logging block, then the `display != NULL` block
(render, title, and the IsClosed check which sets `signal_recieved`). -/
def iterBody (env : Env) (i : Nat) (flag : Bool) : List Event × Bool :=
  let capEvents :=
    Event.capture i :: (if env.captureOk i then [] else [Event.logCaptureFail i])
  let numDetections : Int := env.detectCount i
  let detEvents :=
    if numDetections > 0 then
      Event.detect i :: Event.logNumDetections i numDetections ::
        detLogs i numDetections.toNat (env.detections i)
    else [Event.detect i]
  if env.displayCreateOk then
    (capEvents ++ detEvents ++ [Event.renderOnce i, Event.setTitle i, Event.checkClosed i],
      if env.displayClosed i then true else flag)
  else
    (capEvents ++ detEvents, flag)

/-- Asynchronous SIGINT delivery, modelled at iteration boundaries: just before
the while-condition check of iteration `i`, the handler runs when the
environment schedules the signal there. -/
def deliverSignal (env : Env) (i : Nat) (flag : Bool) : List Event × Bool :=
  match env.sigintAt with
  | some k => if k = i then sig_handler SIGINT flag else ([], flag)
  | none => ([], flag)

/-- The `while( !signal_recieved )` loop, fuel-bounded.  Returns `none` when the
fuel runs out before the loop exits, otherwise the loop events and the final
flag.  Each round: deliver any scheduled signal, test the condition, run the
body (which starts with `signal_recieved = false`, since a true flag exits). -/
def loopRun (env : Env) : Nat → Nat → Bool → Option (List Event × Bool)
  | 0, _, _ => none
  | fuel + 1, i, flag =>
    if (deliverSignal env i flag).2 then some (deliverSignal env i flag)
    else
      match loopRun env fuel (i + 1) (iterBody env i false).2 with
      | none => none
      | some r =>
        some ((deliverSignal env i flag).1 ++ (iterBody env i false).1 ++ r.1, r.2)

/-- The teardown sequence (source lines 194-200):
`SAFE_DELETE(pipeline); SAFE_DELETE(display); SAFE_DELETE(net);`
bracketed by the two shutdown printf lines. -/
def shutdownEvents : List Event :=
  [Event.logShuttingDown, Event.deletePipeline, Event.deleteDisplay, Event.deleteNet,
    Event.logShutdownComplete]

/-- `main` (source lines 65-202): help check, signal install, pipeline creation,
detectNet creation, glDisplay creation, the unguarded
`display->SetViewport(10, 10, w, h)` call (a null dereference when display
creation failed), `pipeline->Open()`, the processing loop, and teardown.
Every `return 0` of the source is `Outcome.exited 0`. -/
def runMain (env : Env) (fuel : Nat) : RunResult :=
  if env.helpFlag then { trace := [Event.printUsage], outcome := .exited 0 }
  else
    let sigEvents := if env.signalInstallOk then [] else [Event.logCannotCatchSigint]
    if !env.pipelineCreateOk then
      { trace := sigEvents ++ [Event.logPipelineInitFail], outcome := .exited 0 }
    else
      let initEvents := sigEvents ++ [Event.logPipelineInitOk]
      if !env.netCreateOk then
        { trace := initEvents ++ [Event.logNetLoadFail], outcome := .exited 0 }
      else
        let dispEvents := if env.displayCreateOk then [] else [Event.logDisplayCreateFail]
        if !env.displayCreateOk then
          { trace := initEvents ++ dispEvents, outcome := .crashed }
        else
          let vpEvents := dispEvents ++ [Event.setViewport 10 10 env.width env.height]
          if !env.pipelineOpenOk then
            { trace := initEvents ++ vpEvents ++ [Event.logPipelineOpenFail],
              outcome := .exited 0 }
          else
            let openEvents := vpEvents ++ [Event.logPipelineOpenOk]
            match loopRun env fuel 0 false with
            | none => { trace := initEvents ++ openEvents, outcome := .outOfFuel }
            | some r =>
              { trace := initEvents ++ openEvents ++ r.1 ++ shutdownEvents,
                outcome := .exited 0 }

/-- Startup succeeds far enough to enter the processing loop. -/
def startupOk (env : Env) : Prop :=
  env.helpFlag = false ∧ env.pipelineCreateOk = true ∧ env.netCreateOk = true ∧
    env.displayCreateOk = true ∧ env.pipelineOpenOk = true

instance (env : Env) : Decidable (startupOk env) := by
  unfold startupOk; infer_instance

/-- A fully healthy environment used as the base of concrete test runs. -/
def envBase : Env :=
  { helpFlag := false, signalInstallOk := true, pipelineCreateOk := true,
    width := 1280, height := 720, pipelineOpenOk := true, netCreateOk := true,
    displayCreateOk := true, captureOk := fun _ => true, detectCount := fun _ => 0,
    detections := fun _ => [], displayClosed := fun _ => false, sigintAt := none }

/-- The events that are collaborator calls (as opposed to printf lines): the
control-flow skeleton of an iteration. -/
def isCollabCall : Event → Bool
  | .capture _ => true
  | .detect _ => true
  | .renderOnce _ => true
  | .setTitle _ => true
  | .checkClosed _ => true
  | _ => false

/-- `env` with the detect result at iteration `i` replaced by `(ds, c)`. -/
def withCount (env : Env) (i : Nat) (c : Int) (ds : List Detection) : Env :=
  { env with detectCount := fun j => if j = i then c else env.detectCount j,
             detections := fun j => if j = i then ds else env.detections j }

/-- Healthy startup, SIGINT delivered before the first condition check. -/
def envSig0 : Env := { envBase with sigintAt := some 0 }

/-- Healthy startup, every capture fails, SIGINT before iteration 1. -/
def envCapFail : Env :=
  { envBase with captureOk := fun _ => false, sigintAt := some 1 }

/-- Healthy startup except display creation fails. -/
def envNoDisplay : Env := { envBase with displayCreateOk := false }

/-- Healthy startup, detect reports `-1` every iteration, SIGINT before iteration 1. -/
def envDetNeg : Env :=
  { envBase with detectCount := fun _ => -1, sigintAt := some 1 }

/-- Same as `envDetNeg` but detect reports `0`. -/
def envDetZero : Env :=
  { envBase with detectCount := fun _ => 0, sigintAt := some 1 }

/-- Healthy startup, SIGINT delivered at boundary 2. -/
def envSig2 : Env := { envBase with sigintAt := some 2 }

/-- Healthy startup, no SIGINT ever, display reports closed from iteration 3 on. -/
def envClosed3 : Env :=
  { envBase with displayClosed := fun i => decide (3 ≤ i) }

/-- Healthy startup, no SIGINT, display closed from iteration 0 on. -/
def envClosed0 : Env :=
  { envBase with displayClosed := fun _ => true }

/-! ### Helper lemmas -/

/-- The flag after one loop body: the body writes `signal_recieved` exactly when a
display is present and reports closed (the `IsClosed` check at source line 183). -/
theorem iterBody_snd (env : Env) (i : Nat) (fl : Bool) :
    (iterBody env i fl).2 = (fl || (env.displayCreateOk && env.displayClosed i)) := by
  unfold iterBody
  by_cases hd : env.displayCreateOk = true <;> by_cases hc : env.displayClosed i = true <;>
    simp [hd, hc]

/-- The only capture event the loop body at iteration `i` can emit is `capture i`. -/
theorem iterBody_capture_mem (env : Env) (i : Nat) (fl : Bool) (j : Nat)
    (h : Event.capture j ∈ (iterBody env i fl).1) : j = i := by
  unfold iterBody at h
  by_cases hc : env.captureOk i = true <;> by_cases hn : env.detectCount i > 0 <;>
    by_cases hd : env.displayCreateOk = true <;>
      simp [hc, hn, hd, detLogs] at h <;> omega

/-- Signal delivery never emits a capture event. -/
theorem deliverSignal_capture_not_mem (env : Env) (i : Nat) (fl : Bool) (j : Nat) :
    Event.capture j ∉ (deliverSignal env i fl).1 := by
  unfold deliverSignal sig_handler
  cases env.sigintAt with
  | none => simp
  | some k => by_cases hk : k = i <;> simp [hk, SIGINT]

/-- With a true flag, signal delivery leaves the flag true. -/
theorem deliverSignal_snd_true (env : Env) (i : Nat) :
    (deliverSignal env i true).2 = true := by
  unfold deliverSignal sig_handler
  cases env.sigintAt with
  | none => rfl
  | some k => by_cases hk : k = i <;> simp [hk, SIGINT]

/-- With the flag already true, the loop exits at once whenever any fuel remains. -/
theorem loopRun_true (env : Env) (f i : Nat) :
    loopRun env (f + 1) i true = some (deliverSignal env i true) := by
  rw [loopRun, if_pos (deliverSignal_snd_true env i)]

/-- With SIGINT scheduled at boundary `k` and enough fuel, the loop exits. -/
theorem loopRun_isSome_sigint (env : Env) (k : Nat) (hs : env.sigintAt = some k) :
    ∀ fuel i fl, i ≤ k → k < i + fuel → (loopRun env fuel i fl).isSome := by
  intro fuel
  induction fuel with
  | zero => intro i fl hik hk; omega
  | succ f ih =>
    intro i fl hik hk
    rw [loopRun]
    by_cases hfl : (deliverSignal env i fl).2 = true
    · rw [if_pos hfl]; rfl
    · have hik' : i ≠ k := by
        intro he
        subst he
        exact hfl (by unfold deliverSignal sig_handler; simp [hs, SIGINT])
      rw [if_neg hfl]
      have hrec := ih (i + 1) (iterBody env i false).2 (by omega) (by omega)
      obtain ⟨r, hr⟩ := Option.isSome_iff_exists.mp hrec
      rw [hr]
      rfl

/-- With SIGINT scheduled at boundary `k`, every capture the loop performs is at an
iteration strictly before `k` (no new acquire once the flag is set). -/
theorem loopRun_capture_lt (env : Env) (k : Nat) (hs : env.sigintAt = some k) :
    ∀ fuel i fl r, i ≤ k → loopRun env fuel i fl = some r →
      ∀ j, Event.capture j ∈ r.1 → j < k := by
  intro fuel
  induction fuel with
  | zero => intro i fl r _ hr; simp [loopRun] at hr
  | succ f ih =>
    intro i fl r hik hr j hj
    obtain ⟨revs, rflag⟩ := r
    rw [loopRun] at hr
    by_cases hfl : (deliverSignal env i fl).2 = true
    · rw [if_pos hfl] at hr
      have h1 : deliverSignal env i fl = (revs, rflag) := by injection hr
      have h2 : (deliverSignal env i fl).1 = revs := congrArg Prod.fst h1
      rw [← h2] at hj
      exact absurd hj (deliverSignal_capture_not_mem env i fl j)
    · have hik' : i ≠ k := by
        intro he
        subst he
        exact hfl (by unfold deliverSignal sig_handler; simp [hs, SIGINT])
      rw [if_neg hfl] at hr
      cases hrec : loopRun env f (i + 1) (iterBody env i false).2 with
      | none => rw [hrec] at hr; cases hr
      | some r' =>
        rw [hrec] at hr
        have h1 : ((deliverSignal env i fl).1 ++ (iterBody env i false).1 ++ r'.1, r'.2) =
            ((revs : List Event), rflag) := by injection hr
        have h2 : (deliverSignal env i fl).1 ++ (iterBody env i false).1 ++ r'.1 = revs :=
          congrArg Prod.fst h1
        rw [← h2] at hj
        rcases List.mem_append.mp hj with hj1 | hj2
        · rcases List.mem_append.mp hj1 with hj3 | hj4
          · exact absurd hj3 (deliverSignal_capture_not_mem env i fl j)
          · have := iterBody_capture_mem env i false j hj4
            omega
        · exact ih (i + 1) (iterBody env i false).2 r' (by omega) hrec j hj2

/-- With no SIGINT, a present display, and the display reporting closed at
iteration `k`, the loop exits given enough fuel. -/
theorem loopRun_isSome_closed (env : Env) (k : Nat) (hd : env.displayCreateOk = true)
    (hc : env.displayClosed k = true) :
    ∀ fuel i fl, i ≤ k → k + 2 ≤ i + fuel → (loopRun env fuel i fl).isSome := by
  intro fuel
  induction fuel with
  | zero => intro i fl hik hk; omega
  | succ f ih =>
    intro i fl hik hk
    rw [loopRun]
    by_cases hfl : (deliverSignal env i fl).2 = true
    · rw [if_pos hfl]; rfl
    · rw [if_neg hfl]
      by_cases hik' : i = k
      · subst hik'
        have hflag2 : (iterBody env i false).2 = true := by
          rw [iterBody_snd, hd, hc]; rfl
        obtain ⟨f', rfl⟩ : ∃ f', f = f' + 1 := ⟨f - 1, by omega⟩
        rw [hflag2, loopRun_true]
        rfl
      · have hrec := ih (i + 1) (iterBody env i false).2 (by omega) (by omega)
        obtain ⟨r, hr⟩ := Option.isSome_iff_exists.mp hrec
        rw [hr]
        rfl

/-- Per-detection log lines are never collaborator calls. -/
theorem detLogs_filter_calls (i c : Nat) (ds : List Detection) :
    (detLogs i c ds).filter isCollabCall = [] := by
  rw [List.filter_eq_nil_iff]
  intro a ha
  unfold detLogs at ha
  obtain ⟨p, _, rfl⟩ := List.mem_map.mp ha
  simp [isCollabCall]

/-- With SIGINT scheduled before the first condition check, the loop body never
runs: the only loop trace is the handler's printf. -/
theorem loopRun_sigint_zero (env : Env) (f : Nat) (hs : env.sigintAt = some 0) :
    loopRun env (f + 1) 0 false = some ([Event.logReceivedSigint], true) := by
  have h2 : deliverSignal env 0 false = ([Event.logReceivedSigint], true) := by
    unfold deliverSignal sig_handler
    simp [hs, SIGINT]
  rw [loopRun, h2]
  rfl

/-- Shape of a full run that reaches and exits the loop: startup diagnostics,
the loop trace, then the teardown sequence, exiting with status 0. -/
theorem runMain_loop_some (env : Env) (fuel : Nat) (h : startupOk env)
    (r : List Event × Bool) (hr : loopRun env fuel 0 false = some r) :
    runMain env fuel =
      { trace := (if env.signalInstallOk then [] else [Event.logCannotCatchSigint]) ++
          [Event.logPipelineInitOk, Event.setViewport 10 10 env.width env.height,
            Event.logPipelineOpenOk] ++ r.1 ++ shutdownEvents,
        outcome := .exited 0 } := by
  obtain ⟨h1, h2, h3, h4, h5⟩ := h
  simp [runMain, h1, h2, h3, h4, h5, hr]

/-! ### Claim theorems -/

/-- C1 counterexample: with a healthy startup and immediate cancellation, the
teardown trace releases FrameSource (`deletePipeline`) before DisplaySink
(`deleteDisplay`) and DisplaySink before DetectionEngine (`deleteNet`) — not
the claimed DisplaySink-then-DetectionEngine-then-FrameSource order. -/
theorem release_order_counterexample :
    Event.deletePipeline ∈ (runMain envSig0 1).trace ∧
    Event.deleteDisplay ∈ (runMain envSig0 1).trace ∧
    Event.deleteNet ∈ (runMain envSig0 1).trace ∧
    (runMain envSig0 1).trace.indexOf Event.deletePipeline <
      (runMain envSig0 1).trace.indexOf Event.deleteDisplay ∧
    (runMain envSig0 1).trace.indexOf Event.deleteDisplay <
      (runMain envSig0 1).trace.indexOf Event.deleteNet := by
  decide

/-- C1 (amended): whenever startup succeeds and the loop exits (any cancellation
source), the run exits with status 0 and its trace ends with the fixed teardown
sequence FrameSource first, then DisplaySink, then DetectionEngine. -/
theorem release_order_amended (env : Env) (fuel : Nat) (h : startupOk env)
    (hexit : (runMain env fuel).outcome = .exited 0) :
    ∃ pre, (runMain env fuel).trace =
      pre ++ [Event.logShuttingDown, Event.deletePipeline, Event.deleteDisplay,
        Event.deleteNet, Event.logShutdownComplete] := by
  obtain ⟨h1, h2, h3, h4, h5⟩ := h
  cases hr : loopRun env fuel 0 false with
  | none =>
    exfalso
    rw [runMain] at hexit
    simp [h1, h2, h3, h4, h5, hr] at hexit
  | some r =>
    rw [runMain_loop_some env fuel ⟨h1, h2, h3, h4, h5⟩ r hr]
    refine ⟨(if env.signalInstallOk then [] else [Event.logCannotCatchSigint]) ++
      [Event.logPipelineInitOk, Event.setViewport 10 10 env.width env.height,
        Event.logPipelineOpenOk] ++ r.1, ?_⟩
    simp [shutdownEvents]

/-- C1 witness: the amended teardown-order theorem applied to a concrete run. -/
theorem release_order_amended_witness :
    ∃ pre, (runMain envSig0 1).trace =
      pre ++ [Event.logShuttingDown, Event.deletePipeline, Event.deleteDisplay,
        Event.deleteNet, Event.logShutdownComplete] :=
  release_order_amended envSig0 1 (by decide) (by decide)

/-- C2 counterexample: iteration 0 fails its capture (its failure is logged), yet the
same iteration still invokes detect and renderOnce — the cycle is not skipped. -/
theorem acquire_fail_counterexample :
    Event.logCaptureFail 0 ∈ (runMain envCapFail 2).trace ∧
    Event.detect 0 ∈ (runMain envCapFail 2).trace ∧
    Event.renderOnce 0 ∈ (runMain envCapFail 2).trace := by
  decide

/-- C2 (amended): on every iteration whose capture fails, the failure is reported,
but the iteration is not skipped: detect is still invoked, and renderOnce is still
invoked whenever a display is present. -/
theorem acquire_fail_amended (env : Env) (i : Nat) (fl : Bool)
    (h : env.captureOk i = false) :
    Event.logCaptureFail i ∈ (iterBody env i fl).1 ∧
    Event.detect i ∈ (iterBody env i fl).1 ∧
    (env.displayCreateOk = true → Event.renderOnce i ∈ (iterBody env i fl).1) := by
  unfold iterBody
  by_cases hn : env.detectCount i > 0 <;> by_cases hd : env.displayCreateOk = true <;>
    simp [h, hn, hd]

/-- C2 witness: the amended acquire-failure theorem applied to a concrete iteration. -/
theorem acquire_fail_amended_witness :
    Event.logCaptureFail 0 ∈ (iterBody envCapFail 0 false).1 ∧
    Event.detect 0 ∈ (iterBody envCapFail 0 false).1 ∧
    (envCapFail.displayCreateOk = true →
      Event.renderOnce 0 ∈ (iterBody envCapFail 0 false).1) :=
  acquire_fail_amended envCapFail 0 false (by decide)

/-- C3: when DisplaySink creation fails the failure is logged, but the run then
dereferences the null display at the unguarded `display->SetViewport(10, 10, w, h)`
call and crashes before the loop — it does not continue headless, and the null
display IS used. -/
theorem headless_null_viewport_bug :
    runMain envNoDisplay 5 =
      { trace := [Event.logPipelineInitOk, Event.logDisplayCreateFail],
        outcome := .crashed } := by
  decide

/-- C4 counterexample: an iteration whose detect call returns `-1` emits exactly the
events below — no diagnostic of any kind — and the whole run is indistinguishable
from one where detect returns `0`. -/
theorem detect_neg_counterexample :
    (iterBody envDetNeg 0 false).1 =
      [Event.capture 0, Event.detect 0, Event.renderOnce 0, Event.setTitle 0,
        Event.checkClosed 0] ∧
    runMain envDetNeg 3 = runMain envDetZero 3 := by
  decide

/-- C4 (amended): for every iteration in which detect returns `count < 0`, no
diagnostic is produced; the iteration continues with no per-detection output,
behaving exactly as if detect had returned `0` (non-fatal, no retry). -/
theorem detect_neg_amended (env : Env) (i : Nat) (fl : Bool)
    (h : env.detectCount i < 0) :
    iterBody env i fl =
      iterBody { env with detectCount := fun j => if j = i then 0 else env.detectCount j }
        i fl ∧
    (∀ n d, Event.logDetection i n d ∉ (iterBody env i fl).1) ∧
    (∀ m, Event.logNumDetections i m ∉ (iterBody env i fl).1) := by
  have hn : ¬ env.detectCount i > 0 := by omega
  refine ⟨?_, ?_, ?_⟩
  · unfold iterBody
    by_cases hd : env.displayCreateOk = true <;> simp [hn, hd]
  · intro n d
    unfold iterBody
    by_cases hc : env.captureOk i = true <;> by_cases hd : env.displayCreateOk = true <;>
      simp [hn, hc, hd]
  · intro m
    unfold iterBody
    by_cases hc : env.captureOk i = true <;> by_cases hd : env.displayCreateOk = true <;>
      simp [hn, hc, hd]

/-- C4 witness: the amended detect-failure theorem applied to a concrete iteration. -/
theorem detect_neg_amended_witness :
    iterBody envDetNeg 0 false =
      iterBody
        { envDetNeg with
            detectCount := fun j => if j = 0 then 0 else envDetNeg.detectCount j }
        0 false ∧
    (∀ n d, Event.logDetection 0 n d ∉ (iterBody envDetNeg 0 false).1) ∧
    (∀ m, Event.logNumDetections 0 m ∉ (iterBody envDetNeg 0 false).1) :=
  detect_neg_amended envDetNeg 0 false (by decide)

/-- C5: with SIGINT delivered at loop boundary `k` during Streaming (the cooperative
delivery points of the single-threaded model) and enough fuel, the run exits with
status 0 and every acquire in the whole trace belongs to an iteration before `k` —
no new acquire is issued after the flag is set. -/
theorem sigint_stops_loop (env : Env) (fuel k : Nat) (h : startupOk env)
    (hs : env.sigintAt = some k) (hf : k < fuel) :
    (runMain env fuel).outcome = .exited 0 ∧
    ∀ j, Event.capture j ∈ (runMain env fuel).trace → j < k := by
  have hsome := loopRun_isSome_sigint env k hs fuel 0 false (Nat.zero_le k) (by omega)
  obtain ⟨r, hr⟩ := Option.isSome_iff_exists.mp hsome
  rw [runMain_loop_some env fuel h r hr]
  refine ⟨rfl, ?_⟩
  intro j hj
  simp only [shutdownEvents, List.mem_append, List.mem_cons, List.mem_singleton,
    List.not_mem_nil] at hj
  cases hsi : env.signalInstallOk <;> rw [hsi] at hj <;> simp at hj <;>
    exact loopRun_capture_lt env k hs fuel 0 false r (Nat.zero_le k) hr j hj

/-- C5 witness: the SIGINT-stops-the-loop theorem applied to a concrete run. -/
theorem sigint_stops_loop_witness :
    (runMain envSig2 5).outcome = .exited 0 ∧
    ∀ j, Event.capture j ∈ (runMain envSig2 5).trace → j < 2 :=
  sigint_stops_loop envSig2 5 2 (by decide) rfl (by decide)

/-- C6: if the display reports closed at iteration `k` while SIGINT is never
delivered, the loop still exits: the run terminates with status 0 and its trace ends
with the teardown sequence (display close is a sufficient, independent cancellation
source). -/
theorem display_close_terminates (env : Env) (fuel k : Nat) (h : startupOk env)
    (_hs : env.sigintAt = none) (hc : env.displayClosed k = true) (hf : k + 2 ≤ fuel) :
    (runMain env fuel).outcome = .exited 0 ∧
    ∃ pre, (runMain env fuel).trace = pre ++ shutdownEvents := by
  obtain ⟨h1, h2, h3, h4, h5⟩ := h
  have hsome := loopRun_isSome_closed env k h4 hc fuel 0 false (Nat.zero_le k) (by omega)
  obtain ⟨r, hr⟩ := Option.isSome_iff_exists.mp hsome
  rw [runMain_loop_some env fuel ⟨h1, h2, h3, h4, h5⟩ r hr]
  refine ⟨rfl, ⟨(if env.signalInstallOk then [] else [Event.logCannotCatchSigint]) ++
    [Event.logPipelineInitOk, Event.setViewport 10 10 env.width env.height,
      Event.logPipelineOpenOk] ++ r.1, ?_⟩⟩
  simp

/-- C6 witness: the display-close termination theorem applied to a concrete run in
which the display reports closed from iteration 3 on and no SIGINT ever arrives. -/
theorem display_close_terminates_witness :
    (runMain envClosed3 5).outcome = .exited 0 ∧
    ∃ pre, (runMain envClosed3 5).trace = pre ++ shutdownEvents :=
  display_close_terminates envClosed3 5 3 (by decide) rfl (by decide) (by decide)

/-- C7: a detect call returning 0 emits no per-detection log lines (and no count
line), and the iteration's collaborator-call skeleton and resulting cancellation
flag are identical to those of a call returning 3 — identical subsequent control
flow. -/
theorem zero_detections_same_flow (env : Env) (i : Nat) (fl : Bool)
    (ds : List Detection) :
    (iterBody (withCount env i 0 ds) i fl).1.filter isCollabCall =
      (iterBody (withCount env i 3 ds) i fl).1.filter isCollabCall ∧
    (iterBody (withCount env i 0 ds) i fl).2 = (iterBody (withCount env i 3 ds) i fl).2 ∧
    (∀ n d, Event.logDetection i n d ∉ (iterBody (withCount env i 0 ds) i fl).1) ∧
    (∀ m, Event.logNumDetections i m ∉ (iterBody (withCount env i 0 ds) i fl).1) := by
  refine ⟨?_, ?_, ?_, ?_⟩
  · unfold iterBody withCount
    by_cases hc : env.captureOk i = true <;> by_cases hd : env.displayCreateOk = true <;>
      simp [hc, hd, detLogs_filter_calls, isCollabCall]
  · rw [iterBody_snd, iterBody_snd]
    rfl
  · intro n d
    unfold iterBody withCount
    by_cases hc : env.captureOk i = true <;> by_cases hd : env.displayCreateOk = true <;>
      simp [hc, hd]
  · intro m
    unfold iterBody withCount
    by_cases hc : env.captureOk i = true <;> by_cases hd : env.displayCreateOk = true <;>
      simp [hc, hd]

/-- C8: `--help` exits with status 0, and each startup failure path — pipeline
creation failure, detectNet creation failure, pipeline open failure — prints its
diagnostic and exits with that same status 0. -/
theorem startup_failures_exit_zero (env : Env) (fuel : Nat) :
    (env.helpFlag = true →
      runMain env fuel = { trace := [Event.printUsage], outcome := .exited 0 }) ∧
    (env.helpFlag = false → env.pipelineCreateOk = false →
      Event.logPipelineInitFail ∈ (runMain env fuel).trace ∧
        (runMain env fuel).outcome = .exited 0) ∧
    (env.helpFlag = false → env.pipelineCreateOk = true → env.netCreateOk = false →
      Event.logNetLoadFail ∈ (runMain env fuel).trace ∧
        (runMain env fuel).outcome = .exited 0) ∧
    (env.helpFlag = false → env.pipelineCreateOk = true → env.netCreateOk = true →
      env.displayCreateOk = true → env.pipelineOpenOk = false →
      Event.logPipelineOpenFail ∈ (runMain env fuel).trace ∧
        (runMain env fuel).outcome = .exited 0) := by
  refine ⟨?_, ?_, ?_, ?_⟩
  · intro hh
    simp [runMain, hh]
  · intro hh hp
    cases hsi : env.signalInstallOk <;> simp [runMain, hh, hp, hsi]
  · intro hh hp hn
    cases hsi : env.signalInstallOk <;> simp [runMain, hh, hp, hn, hsi]
  · intro hh hp hn hd ho
    cases hsi : env.signalInstallOk <;> simp [runMain, hh, hp, hn, hd, ho, hsi]

/-- C8 witness: the exit-status theorem applied to a concrete pipeline-creation
failure (and to `--help`). -/
theorem startup_failures_exit_zero_witness :
    (Event.logPipelineInitFail ∈
        (runMain { envBase with pipelineCreateOk := false } 1).trace ∧
      (runMain { envBase with pipelineCreateOk := false } 1).outcome = .exited 0) ∧
    runMain { envBase with helpFlag := true } 1 =
      { trace := [Event.printUsage], outcome := .exited 0 } :=
  ⟨(startup_failures_exit_zero { envBase with pipelineCreateOk := false } 1).2.1 rfl rfl,
    (startup_failures_exit_zero { envBase with helpFlag := true } 1).1 rfl⟩

/-- C9 counterexample: with no SIGINT ever delivered, the loop body itself writes
the cancellation flag — it is false before the body of iteration 0 and true after,
set by the display-closed check inside the loop. -/
theorem flag_written_by_loop_counterexample :
    envClosed0.sigintAt = none ∧ (iterBody envClosed0 0 false).2 = true := by
  decide

/-- C9 (amended): besides the interrupt handler, the loop body also writes the
CancellationFlag: exactly when a display is present and reports closed.  The write
is monotone — a set flag is never cleared by the loop. -/
theorem flag_writers_amended (env : Env) (i : Nat) (fl : Bool) :
    (iterBody env i fl).2 = (fl || (env.displayCreateOk && env.displayClosed i)) ∧
    (fl = true → (iterBody env i fl).2 = true) := by
  refine ⟨iterBody_snd env i fl, fun hf => ?_⟩
  rw [iterBody_snd, hf, Bool.true_or]

/-- C9 witness: the flag-writers theorem applied at a concrete iteration, its
monotonicity hypothesis discharged. -/
theorem flag_writers_amended_witness :
    ((iterBody envClosed0 0 true).2 =
        (true || (envClosed0.displayCreateOk && envClosed0.displayClosed 0)) ∧
      (true = true → (iterBody envClosed0 0 true).2 = true)) ∧
    (iterBody envClosed0 0 true).2 = true :=
  ⟨flag_writers_amended envClosed0 0 true,
    (flag_writers_amended envClosed0 0 true).2 rfl⟩

/-- C10: if SIGINT is delivered before the loop's first condition check, the loop
body executes zero times — no acquire and no detect call appears anywhere in the
trace — and the run proceeds directly to teardown, exiting with status 0. -/
theorem sigint_before_loop (env : Env) (fuel : Nat) (h : startupOk env)
    (hs : env.sigintAt = some 0) (hf : 0 < fuel) :
    (runMain env fuel).outcome = .exited 0 ∧
    (∀ j, Event.capture j ∉ (runMain env fuel).trace) ∧
    (∀ j, Event.detect j ∉ (runMain env fuel).trace) := by
  obtain ⟨f, rfl⟩ : ∃ f, fuel = f + 1 := ⟨fuel - 1, by omega⟩
  rw [runMain_loop_some env (f + 1) h ([Event.logReceivedSigint], true)
    (loopRun_sigint_zero env f hs)]
  refine ⟨rfl, ?_, ?_⟩ <;> intro j <;> cases hsi : env.signalInstallOk <;>
    simp [hsi, shutdownEvents]

/-- C10 witness: the SIGINT-before-loop theorem applied to a concrete run. -/
theorem sigint_before_loop_witness :
    (runMain envSig0 1).outcome = .exited 0 ∧
    (∀ j, Event.capture j ∉ (runMain envSig0 1).trace) ∧
    (∀ j, Event.detect j ∉ (runMain envSig0 1).trace) :=
  sigint_before_loop envSig0 1 (by decide) rfl (by decide)

end DetectnetPipeline
